import Mathlib

/-! # Educadd backend, lead-ingestion pipeline: shallow embedding

Embeds the lead-ingestion pipeline of `server.js` (field validation, the
deduplicating store, response construction, the listing endpoint) together
with the notification wiring of `email.js`, and settles the frozen claims
about it.

JS strings are modelled as Lean strings.  Every JS string operation the code
uses (`split`, `replace(/\D/g,"")`, `trim`, `toLowerCase`, `startsWith`, the
two regex tests) is embedded as a structurally recursive function over the
underlying character list, so that every definition evaluates inside the
kernel.  All inputs exercised by the claims are ASCII, where these models
agree exactly with the JS semantics.

Time instants (`created_at_utc`, a TIMESTAMPTZ assigned by the store at
insertion) are modelled abstractly as natural numbers (milliseconds since the
Unix epoch).  `Date.prototype.toISOString` and the `Asia/Kolkata`
`toLocaleString` rendering are modelled as injective renderings of the
instant; the claims settled here depend only on which instant is rendered and
where the rendering happens, not on the concrete calendar format. -/

/-- JS `String.prototype.split` at a single separator character:
`"a@b@c".split("@") = ["a","b","c"]`, `"".split("@") = [""]`. -/
def splitAtChar (c : Char) : List Char → List (List Char)
  | [] => [[]]
  | x :: xs =>
    match splitAtChar c xs with
    | [] => if x == c then [[], []] else [[x]]
    | r :: rs => if x == c then [] :: r :: rs else (x :: r) :: rs

/-- JS `s.split(c)` on strings. -/
def jsSplit (s : String) (c : Char) : List String :=
  (splitAtChar c s.data).map String.mk

/-- JS `(phoneRaw || "").replace(/\D/g, "")` (server.js line 89): keep only
the decimal digits of the input. -/
def stripNonDigits (s : String) : String :=
  String.mk (s.data.filter Char.isDigit)

/-- JS `String.prototype.trim`: drop leading and trailing whitespace. -/
def jsTrim (s : String) : String :=
  String.mk (((s.data.dropWhile Char.isWhitespace).reverse.dropWhile
    Char.isWhitespace).reverse)

/-- JS `String.prototype.toLowerCase`, ASCII fragment. -/
def jsToLower (s : String) : String :=
  String.mk (s.data.map Char.toLower)

/-- Boolean list prefix test (helper for `jsStartsWith`). -/
def leadsWith : List Char → List Char → Bool
  | [], _ => true
  | _ :: _, [] => false
  | a :: as, b :: bs => a == b && leadsWith as bs

/-- JS `s.startsWith(p)`. -/
def jsStartsWith (s p : String) : Bool := leadsWith p.data s.data

/-- Truthiness of a JS value destructured from the request body, as used by
`if (!name || !email || !phone)` (server.js line 125): absent fields and the
empty string are falsy, every other string is truthy. -/
def truthy : Option String → Bool
  | none => false
  | some s => s != ""

/-- The hard-coded disposable-domain denylist (server.js lines 64-71). -/
def DISPOSABLE_DOMAINS : List String :=
  ["mailinator.com", "yopmail.com", "10minutemail.com", "maildrop.cc",
   "tempmail.com", "guerrillamail.com"]

/-- The domain part JS extracts via `(email || "").split("@")[1]`
(server.js line 74). -/
def jsDomainOf (email : String) : Option String :=
  (jsSplit email '@').get? 1

/-- `isDisposableEmail` (server.js lines 73-76): take the split-at-`@`
component at index 1; an absent or empty component is falsy; otherwise test
lowercased membership in the denylist. -/
def isDisposableEmail (email : String) : Bool :=
  match jsDomainOf email with
  | none => false
  | some d => d != "" && DISPOSABLE_DOMAINS.contains (jsToLower d)

/-- The email-shape regex `/^[^\s@]+@[^\s@]+\.[^\s@]+$/` (server.js
line 131).  A string matches iff it has exactly one at-sign, no whitespace, a
nonempty local part, and a domain part containing a dot that is neither its
first nor its last character (the `[^\s@]` class itself admits dots, so only
one internal dot is required). -/
def isEmailFormat (email : String) : Bool :=
  match jsSplit email '@' with
  | [loc, dom] =>
    loc != "" && loc.data.all (fun ch => !ch.isWhitespace) &&
    dom.data.all (fun ch => !ch.isWhitespace) &&
    (match dom.data with
     | [] => false
     | _ :: rest => rest.dropLast.contains '.')
  | _ => false

/-- `isAllSameDigits` (server.js lines 78-80), the regex `/^(\d)\1{9}$/`:
a first digit followed by exactly nine copies of it. -/
def isAllSameDigits (phone : String) : Bool :=
  match phone.data with
  | [] => false
  | c :: rest => c.isDigit && rest.length == 9 && rest.all (· == c)

/-- `isSequential` (server.js lines 82-85): membership in the fixed list of
sequential placeholder numbers. -/
def isSequential (phone : String) : Bool :=
  (["0123456789", "1234567890", "0987654321"] : List String).contains phone

/-- The regex `/^\d{10}$/` (server.js line 104). -/
def tenDigitTest (d : String) : Bool :=
  d.length == 10 && d.data.all Char.isDigit

def countryCodeMsg : String :=
  "Please enter your 10-digit phone number without country code (+91 or 91 at the start)."

def wrongLengthMsg : String := "Phone number must be 10 digits (India)."

def invalidFormatMsg : String := "Invalid phone number format."

def implausibleMsg : String :=
  "Please provide a valid mobile number (not placeholders or sequential digits)."

def missingFieldsMsg : String := "Name, email and phone are required."

def invalidEmailMsg : String := "Invalid email format."

def disposableMsg : String :=
  "Please use a permanent email address (no temporary/disposable addresses)."

def duplicateMsg : String :=
  "Your inquiry has already been received — we will contact you soon."

def successMsg : String :=
  "Thanks! Your inquiry has been received — we will contact you soon."

def insertErrorMsg : String := "Server error inserting lead."

/-- The console line emitted on the 201 path (server.js line 196). -/
def emailLogLine : String := "📧 About to send email notification"

/-- Result type of `validatePhoneRaw`: `{ok:true, phone}` or
`{ok:false, message}`. -/
inductive PhoneResult where
  | ok (phone : String)
  | err (message : String)
deriving DecidableEq

/-- `validatePhoneRaw` (server.js lines 87-117), branch for branch. -/
def validatePhoneRaw (phoneRaw : String) : PhoneResult :=
  let digits := stripNonDigits phoneRaw
  if digits.length == 12 && jsStartsWith digits "91" then
    .err countryCodeMsg
  else if digits.length != 10 then
    .err wrongLengthMsg
  else if !(tenDigitTest digits) then
    .err invalidFormatMsg
  else if isAllSameDigits digits || isSequential digits then
    .err implausibleMsg
  else
    .ok digits

/-- The JSON request body of POST /leads, destructured as
`{ name, email, phone, course, address }` (server.js line 123). -/
structure ReqBody where
  name : Option String
  email : Option String
  phone : Option String
  course : Option String
  address : Option String
deriving DecidableEq

/-- A stored row of the `leads` table (server.js lines 40-52). -/
structure DbRow where
  id : String
  name : String
  email : String
  phone : String
  address : String
  course : String
  source : String
  created_at_utc : Nat
deriving DecidableEq

/-- The lead projection returned to clients (server.js lines 183-193 and
264-276). -/
structure LeadOut where
  id : String
  name : String
  email : String
  phone : String
  address : String
  course : String
  source : String
  createdAt : String
  createdAtUTC : String
deriving DecidableEq

/-- Outcome of the request-validation phase of POST /leads
(server.js lines 123-147). -/
inductive Validated where
  | invalid (status : Nat) (message : String)
  | valid (name email phone address course : String)
deriving DecidableEq

/-- The validation phase of POST /leads (server.js lines 123-147), in source
order: presence/truthiness, email shape, disposable domain, phone.  On
success it carries the raw name and email (normalisation happens later, at
insertion) together with the cleaned 10-digit phone and the
`|| ""`-defaulted optional fields. -/
def validateBody (b : ReqBody) : Validated :=
  if !truthy b.name || !truthy b.email || !truthy b.phone then
    .invalid 400 missingFieldsMsg
  else
    let email := b.email.getD ""
    let phone := b.phone.getD ""
    if !isEmailFormat email then
      .invalid 400 invalidEmailMsg
    else if isDisposableEmail email then
      .invalid 400 disposableMsg
    else
      match validatePhoneRaw phone with
      | .err m => .invalid 400 m
      | .ok cleaned =>
        .valid (b.name.getD "") email cleaned (b.address.getD "")
          (b.course.getD "")

/-- Abstract model of `Date.prototype.toISOString` on the abstract instant:
an injective rendering of the millisecond count. -/
def toISOString (t : Nat) : String := "1970-01-01T+" ++ toString t ++ "msZ"

/-- Abstract model of `toLocaleString("en-IN", { timeZone: "Asia/Kolkata" })`
applied to the instant: the same instant shifted to UTC+05:30 and rendered.
Computed from the UTC instant on demand; nothing is ever stored for it. -/
def toLocaleIST (t : Nat) : String := "IST+" ++ toString (t + 19800000) ++ "ms"

/-- The row the POST handler inserts (server.js lines 160-168): generated id,
trimmed name, trimmed lowercased email, cleaned phone, defaulted
address/course, literal source `"website"`, and the store-assigned
insertion instant. -/
def mkRow (rowId nm em ph ad co : String) (t : Nat) : DbRow :=
  { id := rowId, name := jsTrim nm, email := jsToLower (jsTrim em),
    phone := ph, address := ad, course := co, source := "website",
    created_at_utc := t }

/-- Projection of a stored row to the client-facing lead shape, deriving both
timestamp renderings from `created_at_utc` at read time (server.js
lines 177-193 for POST, 264-276 for GET). -/
def rowToLeadOut (r : DbRow) : LeadOut :=
  { id := r.id, name := r.name, email := r.email, phone := r.phone,
    address := r.address, course := r.course, source := r.source,
    createdAt := toLocaleIST r.created_at_utc,
    createdAtUTC := toISOString r.created_at_utc }

/-- Does the table already hold a row with this exact (email, phone) pair?
This is the condition under which the `ON CONFLICT (email, phone) DO
NOTHING` insert (server.js lines 153-158) inserts nothing and `rowCount`
comes back 0. -/
def pairTaken (db : List DbRow) (em ph : String) : Bool :=
  db.any (fun r => r.email == em && r.phone == ph)

/-- The response of POST /leads, together with the console lines the handler
emits and the number of `sendLeadEmail` invocations it performs.  The
fire-and-forget notification block (server.js lines 198-210) is commented
out in the source, so every path performs zero invocations; the only trace on
the success path is the `emailLogLine` console line (server.js line 196). -/
structure PostResponse where
  status : Nat
  message : String
  lead : Option LeadOut
  log : List String
  emailsSent : Nat
deriving DecidableEq

/-- POST /leads in backed mode (`pool` non-null, server.js lines 150-221),
with the store state threaded explicitly: `freshId` is the uuid generated at
line 152 and `now` the instant the store assigns to `created_at_utc`.
Returns the response and the new store contents. -/
def handlePostBacked (db : List DbRow) (freshId : String) (now : Nat)
    (b : ReqBody) : PostResponse × List DbRow :=
  match validateBody b with
  | .invalid st m =>
    ({ status := st, message := m, lead := none, log := [],
       emailsSent := 0 }, db)
  | .valid nm em ph ad co =>
    let row := mkRow freshId nm em ph ad co now
    if pairTaken db row.email row.phone then
      ({ status := 409, message := duplicateMsg, lead := none, log := [],
         emailsSent := 0 }, db)
    else
      ({ status := 201, message := successMsg,
         lead := some (rowToLeadOut row), log := [emailLogLine],
         emailsSent := 0 }, db ++ [row])

/-- POST /leads in backed mode when `pool.query` rejects with error detail
`errDetail` (connectivity or schema failure): the catch block at server.js
lines 217-220 logs the error and answers 500 with the fixed generic message.
The rejected insert writes nothing, so no store state is threaded. -/
def handlePostBackedDbError (db : List DbRow) (errDetail : String)
    (b : ReqBody) : PostResponse × List DbRow :=
  match validateBody b with
  | .invalid st m =>
    ({ status := st, message := m, lead := none, log := [],
       emailsSent := 0 }, db)
  | .valid _ _ _ _ _ =>
    ({ status := 500, message := insertErrorMsg, lead := none,
       log := ["DB insert error: " ++ errDetail], emailsSent := 0 }, db)

/-- POST /leads in fallback mode (`pool` null, server.js lines 223-247).
The handler builds the lead object and responds 201, but `server.js`
declares no in-memory collection at all: the constructed lead is appended to
nothing, so there is no store state to thread and no notification either. -/
def handlePostFallback (freshId : String) (now : Nat) (b : ReqBody) :
    PostResponse :=
  match validateBody b with
  | .invalid st m =>
    { status := st, message := m, lead := none, log := [], emailsSent := 0 }
  | .valid nm em ph ad co =>
    { status := 201, message := successMsg,
      lead := some
        { id := freshId, name := jsTrim nm, email := jsToLower (jsTrim em),
          phone := ph, address := ad, course := co, source := "website",
          createdAt := toLocaleIST now, createdAtUTC := toISOString now },
      log := [], emailsSent := 0 }

/-- SQL `ORDER BY created_at_utc DESC` (server.js line 260): rows with the
later creation instant come first. -/
def laterFirst (a b : DbRow) : Prop := b.created_at_utc ≤ a.created_at_utc

instance : DecidableRel laterFirst := fun _ _ => Nat.decLe _ _

instance : IsTotal DbRow laterFirst := ⟨fun _ _ => Nat.le_total _ _⟩

instance : IsTrans DbRow laterFirst :=
  ⟨fun _ _ _ hab hbc => Nat.le_trans hbc hab⟩

/-- The row sequence the SELECT of GET /leads produces in backed mode
(server.js lines 256-262). -/
def dbOrderByCreatedDesc (db : List DbRow) : List DbRow :=
  List.insertionSort laterFirst db

/-- GET /leads in backed mode (server.js lines 254-283): the ordered rows,
each projected to the client shape with both timestamp renderings derived
from `created_at_utc` at read time. -/
def getLeadsBacked (db : List DbRow) : List LeadOut :=
  (dbOrderByCreatedDesc db).map rowToLeadOut

/-- GET /leads in fallback mode (server.js line 285): the handler evaluates
`res.json(leads)`, but no variable named `leads` is declared anywhere in
`server.js`, so evaluating the identifier throws a ReferenceError and no
list is ever produced. -/
def getLeadsFallback : Except String (List LeadOut) :=
  Except.error "ReferenceError: leads is not defined"

/-- The (email, phone)-uniqueness invariant of the `leads` table, enforced by
the constraint `leads_email_phone_unique UNIQUE (email, phone)` (server.js
line 50). -/
def UniquePairs (db : List DbRow) : Prop :=
  List.Pairwise (fun r s => ¬(r.email = s.email ∧ r.phone = s.phone)) db

/-- Number of stored rows carrying a given (email, phone) pair. -/
def pairCount (db : List DbRow) (em ph : String) : Nat :=
  db.countP (fun r => r.email == em && r.phone == ph)

/-! ## Helper lemmas -/

theorem data_stripNonDigits (s : String) :
    (stripNonDigits s).data = s.data.filter Char.isDigit := rfl

theorem stripNonDigits_all (s : String) :
    (stripNonDigits s).data.all Char.isDigit = true := by
  rw [List.all_eq_true]
  intro c hc
  rw [data_stripNonDigits, List.mem_filter] at hc
  exact hc.2

theorem tenDigitTest_of_len10 (s : String)
    (h : (stripNonDigits s).length = 10) :
    tenDigitTest (stripNonDigits s) = true := by
  simp [tenDigitTest, h, stripNonDigits_all]

theorem validatePhoneRaw_countryCode (s : String)
    (h12 : (stripNonDigits s).length = 12)
    (h91 : jsStartsWith (stripNonDigits s) "91" = true) :
    validatePhoneRaw s = .err countryCodeMsg := by
  simp [validatePhoneRaw, h12, h91]

theorem validatePhoneRaw_placeholder (s : String)
    (h10 : (stripNonDigits s).length = 10)
    (hbad : (isAllSameDigits (stripNonDigits s)
      || isSequential (stripNonDigits s)) = true) :
    validatePhoneRaw s = .err implausibleMsg := by
  simp [validatePhoneRaw, h10, hbad, tenDigitTest_of_len10 s h10]

theorem validatePhoneRaw_ne_invalidFormat (s : String) :
    validatePhoneRaw s ≠ .err invalidFormatMsg := by
  simp only [validatePhoneRaw]
  by_cases h1 : ((stripNonDigits s).length == 12
      && jsStartsWith (stripNonDigits s) "91") = true
  · simp [h1, countryCodeMsg, invalidFormatMsg]
  · by_cases h2 : ((stripNonDigits s).length != 10) = true
    · simp [h1, h2, wrongLengthMsg, invalidFormatMsg]
    · have hlen : (stripNonDigits s).length = 10 := by
        simpa using h2
      have ht : tenDigitTest (stripNonDigits s) = true :=
        tenDigitTest_of_len10 s hlen
      by_cases h3 : (isAllSameDigits (stripNonDigits s)
          || isSequential (stripNonDigits s)) = true
      · simp [h1, h2, ht, h3, implausibleMsg, invalidFormatMsg]
      · simp [h1, h2, ht, h3]

theorem validateBody_valid_eq (nm em ph : String) (co ad : Option String)
    (d : String) (hnm : nm ≠ "") (hem : em ≠ "") (hph : ph ≠ "")
    (hfmt : isEmailFormat em = true) (hdisp : isDisposableEmail em = false)
    (hrun : validatePhoneRaw ph = .ok d) :
    validateBody ⟨some nm, some em, some ph, co, ad⟩ =
      .valid nm em d (ad.getD "") (co.getD "") := by
  simp [validateBody, truthy, hnm, hem, hph, hfmt, hdisp, hrun]

theorem validateBody_phoneErr_eq (nm em ph : String) (co ad : Option String)
    (m : String) (hnm : nm ≠ "") (hem : em ≠ "") (hph : ph ≠ "")
    (hfmt : isEmailFormat em = true) (hdisp : isDisposableEmail em = false)
    (hrun : validatePhoneRaw ph = .err m) :
    validateBody ⟨some nm, some em, some ph, co, ad⟩ = .invalid 400 m := by
  simp [validateBody, truthy, hnm, hem, hph, hfmt, hdisp, hrun]

theorem validateBody_disposable_eq (nm em ph : String) (co ad : Option String)
    (hnm : nm ≠ "") (hem : em ≠ "") (hph : ph ≠ "")
    (hfmt : isEmailFormat em = true) (hdisp : isDisposableEmail em = true) :
    validateBody ⟨some nm, some em, some ph, co, ad⟩ =
      .invalid 400 disposableMsg := by
  simp [validateBody, truthy, hnm, hem, hph, hfmt, hdisp]

theorem handlePostBacked_invalid (db : List DbRow) (rowId : String) (t : Nat)
    (b : ReqBody) (st : Nat) (m : String)
    (hv : validateBody b = .invalid st m) :
    handlePostBacked db rowId t b =
      ({ status := st, message := m, lead := none, log := [],
         emailsSent := 0 }, db) := by
  simp [handlePostBacked, hv]

theorem handlePostBacked_fresh (db : List DbRow) (rowId : String) (t : Nat)
    (b : ReqBody) (nm em ph ad co : String)
    (hv : validateBody b = .valid nm em ph ad co)
    (hfresh : pairTaken db (jsToLower (jsTrim em)) ph = false) :
    handlePostBacked db rowId t b =
      ({ status := 201, message := successMsg,
         lead := some (rowToLeadOut (mkRow rowId nm em ph ad co t)),
         log := [emailLogLine], emailsSent := 0 },
       db ++ [mkRow rowId nm em ph ad co t]) := by
  simp only [handlePostBacked, hv, mkRow]
  simp [hfresh]

theorem handlePostBacked_dup (db : List DbRow) (rowId : String) (t : Nat)
    (b : ReqBody) (nm em ph ad co : String)
    (hv : validateBody b = .valid nm em ph ad co)
    (htaken : pairTaken db (jsToLower (jsTrim em)) ph = true) :
    handlePostBacked db rowId t b =
      ({ status := 409, message := duplicateMsg, lead := none, log := [],
         emailsSent := 0 }, db) := by
  simp only [handlePostBacked, hv, mkRow]
  simp [htaken]

theorem pairTaken_append_single (db : List DbRow) (r : DbRow)
    (em ph : String) :
    pairTaken (db ++ [r]) em ph =
      (pairTaken db em ph || (r.email == em && r.phone == ph)) := by
  simp [pairTaken]

theorem pairCount_append_single (db : List DbRow) (r : DbRow)
    (em ph : String) :
    pairCount (db ++ [r]) em ph =
      pairCount db em ph + (if r.email == em && r.phone == ph then 1 else 0) := by
  simp [pairCount, List.countP_append, List.countP_cons]

theorem pairCount_zero_of_not_taken (db : List DbRow) (em ph : String)
    (h : pairTaken db em ph = false) : pairCount db em ph = 0 := by
  rw [pairCount, List.countP_eq_zero]
  rw [pairTaken, List.any_eq_false] at h
  exact h

theorem jsTrim_of_all_whitespace (s : String)
    (h : s.data.all Char.isWhitespace = true) : jsTrim s = "" := by
  have hnil : s.data.dropWhile Char.isWhitespace = [] := by
    rw [List.dropWhile_eq_nil_iff]
    intro x hx
    exact List.all_eq_true.mp h x hx
  simp [jsTrim, hnil]

theorem uniquePairs_handlePostBacked (db : List DbRow) (rowId : String)
    (t : Nat) (b : ReqBody) (hu : UniquePairs db) :
    UniquePairs (handlePostBacked db rowId t b).2 := by
  cases hv : validateBody b with
  | invalid st m =>
    rw [handlePostBacked_invalid db rowId t b st m hv]
    exact hu
  | valid nm em ph ad co =>
    by_cases ht : pairTaken db (jsToLower (jsTrim em)) ph = true
    · rw [handlePostBacked_dup db rowId t b nm em ph ad co hv ht]
      exact hu
    · rw [Bool.not_eq_true] at ht
      rw [handlePostBacked_fresh db rowId t b nm em ph ad co hv ht]
      show UniquePairs (db ++ [mkRow rowId nm em ph ad co t])
      rw [UniquePairs, List.pairwise_append]
      refine ⟨hu, List.pairwise_singleton _ _, ?_⟩
      intro r hr r' hr'
      rw [List.mem_singleton] at hr'
      subst hr'
      rw [pairTaken, List.any_eq_false] at ht
      have hmem := ht r hr
      simp [mkRow] at hmem ⊢
      exact hmem

/-! ## Claim theorems -/

/-- C1: the claim says that for every lead persisted by POST /leads with a
201, the endpoint invokes the notifier (`sendLeadEmail`) on it exactly once,
asynchronously.  The code does not: the fire-and-forget block at server.js
lines 198-210 is commented out, so a successfully persisted lead (status
201, one row stored) produces the `About to send email notification` console
line and zero `sendLeadEmail` invocations. -/
theorem notification_never_dispatched :
    (handlePostBacked [] "lead-1" 0
      ⟨some "A", some "a@x.com", some "9876543210", none, none⟩).1.status
        = 201 ∧
    (handlePostBacked [] "lead-1" 0
      ⟨some "A", some "a@x.com", some "9876543210", none, none⟩).2.length
        = 1 ∧
    (handlePostBacked [] "lead-1" 0
      ⟨some "A", some "a@x.com", some "9876543210", none, none⟩).1.log
        = [emailLogLine] ∧
    (handlePostBacked [] "lead-1" 0
      ⟨some "A", some "a@x.com", some "9876543210", none, none⟩).1.emailsSent
        = 0 := by
  refine ⟨by decide, by decide, by decide, by decide⟩

/-- C2: the claim says an accepted lead appears in GET /leads in both modes,
with fallback mode keeping an in-process ordered collection.  In fallback
mode the code accepts the lead with a 201 but appends it to no collection
(none is declared), and GET /leads evaluates the undeclared identifier
`leads` and throws, so the round trip fails: nothing accepted in fallback
mode ever appears in a GET /leads response. -/
theorem fallback_roundtrip_fails :
    (handlePostFallback "lead-2" 0
      ⟨some "A", some "a@x.com", some "9876543210", none, none⟩).status
        = 201 ∧
    ((handlePostFallback "lead-2" 0
      ⟨some "A", some "a@x.com", some "9876543210", none, none⟩).lead.map
        LeadOut.email) = some "a@x.com" ∧
    getLeadsFallback = Except.error "ReferenceError: leads is not defined" := by
  refine ⟨by decide, by decide, rfl⟩

/-- C4: every input whose stripped digit string has exactly 10 digits and is
all-identical or one of the fixed sequential patterns fails validation with
the implausible-phone message, and for any such request reaching the phone
check (fields present, email acceptable) POST /leads answers 400 with that
message and the store unchanged; meanwhile the concrete scenario input
`9876543210` is accepted, yielding a 201 whose lead carries
`phone = "9876543210"` and `source = "website"`. -/
theorem implausible_phone_rejected :
    (∀ s : String, (stripNonDigits s).length = 10 →
      (isAllSameDigits (stripNonDigits s)
        || isSequential (stripNonDigits s)) = true →
      validatePhoneRaw s = .err implausibleMsg) ∧
    (∀ (db : List DbRow) (rowId : String) (t : Nat) (nm em ph : String)
       (co ad : Option String),
      nm ≠ "" → em ≠ "" → ph ≠ "" →
      isEmailFormat em = true → isDisposableEmail em = false →
      (stripNonDigits ph).length = 10 →
      (isAllSameDigits (stripNonDigits ph)
        || isSequential (stripNonDigits ph)) = true →
      handlePostBacked db rowId t ⟨some nm, some em, some ph, co, ad⟩ =
        ({ status := 400, message := implausibleMsg, lead := none, log := [],
           emailsSent := 0 }, db)) ∧
    (handlePostBacked [] "lead-4" 0
      ⟨some "A", some "a@x.com", some "9876543210", none, none⟩).1.status
        = 201 ∧
    ((handlePostBacked [] "lead-4" 0
      ⟨some "A", some "a@x.com", some "9876543210", none, none⟩).1.lead.map
        LeadOut.phone) = some "9876543210" ∧
    ((handlePostBacked [] "lead-4" 0
      ⟨some "A", some "a@x.com", some "9876543210", none, none⟩).1.lead.map
        LeadOut.source) = some "website" := by
  refine ⟨validatePhoneRaw_placeholder, ?_, by decide, by decide, by decide⟩
  intro db rowId t nm em ph co ad hnm hem hph hfmt hdisp h10 hbad
  exact handlePostBacked_invalid db rowId t _ 400 implausibleMsg
    (validateBody_phoneErr_eq nm em ph co ad implausibleMsg hnm hem hph hfmt
      hdisp (validatePhoneRaw_placeholder ph h10 hbad))

/-- C4 witness: the all-identical digit string 5555555555 is rejected with
the implausible-phone message by the validator, and the corresponding POST
is answered 400 with no row created. -/
theorem implausible_phone_rejected_witness :
    validatePhoneRaw "5555555555" = .err implausibleMsg ∧
    handlePostBacked [] "lead-4b" 0
      ⟨some "A", some "a@x.com", some "5555555555", none, none⟩ =
      ({ status := 400, message := implausibleMsg, lead := none, log := [],
         emailsSent := 0 }, []) :=
  ⟨implausible_phone_rejected.1 "5555555555" (by decide) (by decide),
   implausible_phone_rejected.2.1 [] "lead-4b" 0 "A" "a@x.com" "5555555555"
     none none (by decide) (by decide) (by decide) (by decide) (by decide)
     (by decide) (by decide)⟩

/-- C6: every input whose stripped digit string has exactly 12 digits and
starts with the country prefix 91 fails validation with the
country-code-specific message, regardless of the remaining digits; and for
any request reaching the phone check (fields present, email acceptable),
POST /leads answers 400 with that message and the store is unchanged. -/
theorem country_code_phone_rejected :
    (∀ s : String, (stripNonDigits s).length = 12 →
      jsStartsWith (stripNonDigits s) "91" = true →
      validatePhoneRaw s = .err countryCodeMsg) ∧
    (∀ (db : List DbRow) (rowId : String) (t : Nat) (nm em ph : String)
       (co ad : Option String),
      nm ≠ "" → em ≠ "" → ph ≠ "" →
      isEmailFormat em = true → isDisposableEmail em = false →
      (stripNonDigits ph).length = 12 →
      jsStartsWith (stripNonDigits ph) "91" = true →
      handlePostBacked db rowId t ⟨some nm, some em, some ph, co, ad⟩ =
        ({ status := 400, message := countryCodeMsg, lead := none, log := [],
           emailsSent := 0 }, db)) := by
  refine ⟨validatePhoneRaw_countryCode, ?_⟩
  intro db rowId t nm em ph co ad hnm hem hph hfmt hdisp h12 h91
  exact handlePostBacked_invalid db rowId t _ 400 countryCodeMsg
    (validateBody_phoneErr_eq nm em ph co ad countryCodeMsg hnm hem hph hfmt
      hdisp (validatePhoneRaw_countryCode ph h12 h91))

/-- C6 witness: the scenario input 919876543210 is rejected with the
country-code message and no row is created. -/
theorem country_code_phone_rejected_witness :
    validatePhoneRaw "919876543210" = .err countryCodeMsg ∧
    handlePostBacked [] "lead-6" 0
      ⟨some "A", some "a@x.com", some "919876543210", none, none⟩ =
      ({ status := 400, message := countryCodeMsg, lead := none, log := [],
         emailsSent := 0 }, []) :=
  ⟨country_code_phone_rejected.1 "919876543210" (by decide) (by decide),
   country_code_phone_rejected.2 [] "lead-6" 0 "A" "a@x.com" "919876543210"
     none none (by decide) (by decide) (by decide) (by decide) (by decide)
     (by decide) (by decide)⟩

/-- C7: when the backend insert fails for any reason other than the
uniqueness conflict, the endpoint answers 500 with the fixed generic message
(the same string for every error detail, so nothing internal leaks), logs the
full error detail server-side, stores nothing, and the handler still returns
normally. -/
theorem store_error_generic_500 :
    ∀ (db : List DbRow) (errDetail : String) (b : ReqBody)
      (nm em ph ad co : String),
      validateBody b = .valid nm em ph ad co →
      handlePostBackedDbError db errDetail b =
        ({ status := 500, message := insertErrorMsg, lead := none,
           log := ["DB insert error: " ++ errDetail], emailsSent := 0 },
         db) := by
  intro db errDetail b nm em ph ad co hv
  simp [handlePostBackedDbError, hv]

/-- C7 witness: a concrete connectivity failure yields the generic 500 with
the error detail only in the server-side log. -/
theorem store_error_generic_500_witness :
    handlePostBackedDbError [] "ECONNREFUSED 127.0.0.1:5432"
      ⟨some "A", some "a@x.com", some "9876543210", none, none⟩ =
      ({ status := 500, message := insertErrorMsg, lead := none,
         log := ["DB insert error: ECONNREFUSED 127.0.0.1:5432"],
         emailsSent := 0 }, []) :=
  store_error_generic_500 [] "ECONNREFUSED 127.0.0.1:5432" _
    "A" "a@x.com" "9876543210" "" "" (by decide)

/-- C9: the digit string produced by stripping non-digits consists of digits
only, so once it has passed the exact-length-10 check the `/^\d{10}$/` test
always succeeds, and the invalid-format error branch of `validatePhoneRaw`
is unreachable for every input. -/
theorem phone_format_branch_unreachable :
    (∀ s : String, (stripNonDigits s).data.all Char.isDigit = true) ∧
    (∀ s : String, (stripNonDigits s).length = 10 →
      tenDigitTest (stripNonDigits s) = true) ∧
    (∀ s : String, validatePhoneRaw s ≠ .err invalidFormatMsg) :=
  ⟨stripNonDigits_all, tenDigitTest_of_len10, validatePhoneRaw_ne_invalidFormat⟩

/-- C9 witness: a concrete input with separators passes the format test once
its stripped digit string has length 10. -/
theorem phone_format_branch_unreachable_witness :
    tenDigitTest (stripNonDigits "98-765-43210") = true :=
  phone_format_branch_unreachable.2.1 "98-765-43210" (by decide)

/-- C3: in backed mode the store never holds two rows with the same
(normalised email, cleaned phone) pair — the handler preserves the
uniqueness invariant; submitting the same pair twice (all other fields free
to vary) leaves exactly one stored row for the pair, with the second call
answering 409, writing nothing and sending no notification; and submitting
the same email with a different phone — or the same phone with a different
email — succeeds as a distinct lead. -/
theorem dedup_email_phone_invariant :
    (∀ (db : List DbRow) (rowId : String) (t : Nat) (b : ReqBody),
      UniquePairs db → UniquePairs (handlePostBacked db rowId t b).2) ∧
    (∀ (db : List DbRow) (id1 id2 : String) (t1 t2 : Nat) (b1 b2 : ReqBody)
       (nm1 em1 ph1 ad1 co1 nm2 em2 ph2 ad2 co2 : String),
      validateBody b1 = .valid nm1 em1 ph1 ad1 co1 →
      validateBody b2 = .valid nm2 em2 ph2 ad2 co2 →
      jsToLower (jsTrim em2) = jsToLower (jsTrim em1) → ph2 = ph1 →
      pairTaken db (jsToLower (jsTrim em1)) ph1 = false →
      (handlePostBacked db id1 t1 b1).1.status = 201 ∧
      (handlePostBacked (handlePostBacked db id1 t1 b1).2 id2 t2 b2).1.status
        = 409 ∧
      (handlePostBacked (handlePostBacked db id1 t1 b1).2 id2 t2 b2).2 =
        (handlePostBacked db id1 t1 b1).2 ∧
      (handlePostBacked (handlePostBacked db id1 t1 b1).2 id2 t2 b2).1.lead
        = none ∧
      (handlePostBacked
        (handlePostBacked db id1 t1 b1).2 id2 t2 b2).1.emailsSent = 0 ∧
      pairCount (handlePostBacked (handlePostBacked db id1 t1 b1).2 id2 t2
        b2).2 (jsToLower (jsTrim em1)) ph1 = 1) ∧
    (∀ (db : List DbRow) (id1 id2 : String) (t1 t2 : Nat) (b1 b2 : ReqBody)
       (nm1 em1 ph1 ad1 co1 nm2 em2 ph2 ad2 co2 : String),
      validateBody b1 = .valid nm1 em1 ph1 ad1 co1 →
      validateBody b2 = .valid nm2 em2 ph2 ad2 co2 →
      ph2 ≠ ph1 →
      pairTaken db (jsToLower (jsTrim em1)) ph1 = false →
      pairTaken db (jsToLower (jsTrim em2)) ph2 = false →
      (handlePostBacked db id1 t1 b1).1.status = 201 ∧
      (handlePostBacked (handlePostBacked db id1 t1 b1).2 id2 t2 b2).1.status
        = 201 ∧
      (handlePostBacked (handlePostBacked db id1 t1 b1).2 id2 t2 b2).2.length
        = db.length + 2) ∧
    (∀ (db : List DbRow) (id1 id2 : String) (t1 t2 : Nat) (b1 b2 : ReqBody)
       (nm1 em1 ph1 ad1 co1 nm2 em2 ph2 ad2 co2 : String),
      validateBody b1 = .valid nm1 em1 ph1 ad1 co1 →
      validateBody b2 = .valid nm2 em2 ph2 ad2 co2 →
      jsToLower (jsTrim em2) ≠ jsToLower (jsTrim em1) → ph2 = ph1 →
      pairTaken db (jsToLower (jsTrim em1)) ph1 = false →
      pairTaken db (jsToLower (jsTrim em2)) ph2 = false →
      (handlePostBacked db id1 t1 b1).1.status = 201 ∧
      (handlePostBacked (handlePostBacked db id1 t1 b1).2 id2 t2 b2).1.status
        = 201 ∧
      (handlePostBacked (handlePostBacked db id1 t1 b1).2 id2 t2 b2).2.length
        = db.length + 2) := by
  refine ⟨uniquePairs_handlePostBacked, ?_, ?_, ?_⟩
  · intro db id1 id2 t1 t2 b1 b2 nm1 em1 ph1 ad1 co1 nm2 em2 ph2 ad2 co2
      hv1 hv2 he hp hfresh
    rw [handlePostBacked_fresh db id1 t1 b1 nm1 em1 ph1 ad1 co1 hv1 hfresh]
    have htaken2 : pairTaken (db ++ [mkRow id1 nm1 em1 ph1 ad1 co1 t1])
        (jsToLower (jsTrim em2)) ph2 = true := by
      rw [he, hp, pairTaken_append_single, hfresh]
      simp [mkRow]
    rw [handlePostBacked_dup (db ++ [mkRow id1 nm1 em1 ph1 ad1 co1 t1])
      id2 t2 b2 nm2 em2 ph2 ad2 co2 hv2 htaken2]
    refine ⟨rfl, rfl, rfl, rfl, rfl, ?_⟩
    show pairCount (db ++ [mkRow id1 nm1 em1 ph1 ad1 co1 t1])
      (jsToLower (jsTrim em1)) ph1 = 1
    rw [pairCount_append_single, pairCount_zero_of_not_taken db _ _ hfresh]
    simp [mkRow]
  · intro db id1 id2 t1 t2 b1 b2 nm1 em1 ph1 ad1 co1 nm2 em2 ph2 ad2 co2
      hv1 hv2 hne hf1 hf2
    rw [handlePostBacked_fresh db id1 t1 b1 nm1 em1 ph1 ad1 co1 hv1 hf1]
    have hfresh2 : pairTaken (db ++ [mkRow id1 nm1 em1 ph1 ad1 co1 t1])
        (jsToLower (jsTrim em2)) ph2 = false := by
      rw [pairTaken_append_single, hf2]
      simp [mkRow]
      intro _
      exact fun h => hne h.symm
    rw [handlePostBacked_fresh (db ++ [mkRow id1 nm1 em1 ph1 ad1 co1 t1])
      id2 t2 b2 nm2 em2 ph2 ad2 co2 hv2 hfresh2]
    refine ⟨rfl, rfl, ?_⟩
    simp
  · intro db id1 id2 t1 t2 b1 b2 nm1 em1 ph1 ad1 co1 nm2 em2 ph2 ad2 co2
      hv1 hv2 hne hpeq hf1 hf2
    rw [handlePostBacked_fresh db id1 t1 b1 nm1 em1 ph1 ad1 co1 hv1 hf1]
    have hfresh2 : pairTaken (db ++ [mkRow id1 nm1 em1 ph1 ad1 co1 t1])
        (jsToLower (jsTrim em2)) ph2 = false := by
      rw [pairTaken_append_single, hf2]
      simp [mkRow]
      intro ha
      exact absurd ha.symm hne
    rw [handlePostBacked_fresh (db ++ [mkRow id1 nm1 em1 ph1 ad1 co1 t1])
      id2 t2 b2 nm2 em2 ph2 ad2 co2 hv2 hfresh2]
    refine ⟨rfl, rfl, ?_⟩
    simp

/-- C3 witness: posting the same (email, phone) pair twice — with the name
varying and the second email differing only in case — stores exactly one
row, the second call answering 409; both distinct-lead cases (same email
with a different phone, same phone with a different email) yield two rows;
and the preservation part holds on the empty store. -/
theorem dedup_email_phone_invariant_witness :
    UniquePairs (handlePostBacked [] "i0" 0
      ⟨some "A", some "a@x.com", some "9876543210", none, none⟩).2 ∧
    ((handlePostBacked [] "i1" 0
        ⟨some "A", some "a@x.com", some "9876543210", none, none⟩).1.status
          = 201 ∧
      (handlePostBacked (handlePostBacked [] "i1" 0
          ⟨some "A", some "a@x.com", some "9876543210", none, none⟩).2 "i2" 1
          ⟨some "B", some "A@X.com", some "9876543210", none, none⟩).1.status
        = 409 ∧
      (handlePostBacked (handlePostBacked [] "i1" 0
          ⟨some "A", some "a@x.com", some "9876543210", none, none⟩).2 "i2" 1
          ⟨some "B", some "A@X.com", some "9876543210", none, none⟩).2 =
        (handlePostBacked [] "i1" 0
          ⟨some "A", some "a@x.com", some "9876543210", none, none⟩).2 ∧
      (handlePostBacked (handlePostBacked [] "i1" 0
          ⟨some "A", some "a@x.com", some "9876543210", none, none⟩).2 "i2" 1
          ⟨some "B", some "A@X.com", some "9876543210", none, none⟩).1.lead
        = none ∧
      (handlePostBacked (handlePostBacked [] "i1" 0
          ⟨some "A", some "a@x.com", some "9876543210", none, none⟩).2 "i2" 1
          ⟨some "B", some "A@X.com", some "9876543210", none,
            none⟩).1.emailsSent = 0 ∧
      pairCount (handlePostBacked (handlePostBacked [] "i1" 0
          ⟨some "A", some "a@x.com", some "9876543210", none, none⟩).2 "i2" 1
          ⟨some "B", some "A@X.com", some "9876543210", none, none⟩).2
        (jsToLower (jsTrim "a@x.com")) "9876543210" = 1) ∧
    ((handlePostBacked [] "i3" 0
        ⟨some "A", some "a@x.com", some "9876543210", none, none⟩).1.status
          = 201 ∧
      (handlePostBacked (handlePostBacked [] "i3" 0
          ⟨some "A", some "a@x.com", some "9876543210", none, none⟩).2 "i4" 1
          ⟨some "A", some "a@x.com", some "9123456780", none, none⟩).1.status
        = 201 ∧
      (handlePostBacked (handlePostBacked [] "i3" 0
          ⟨some "A", some "a@x.com", some "9876543210", none, none⟩).2 "i4" 1
          ⟨some "A", some "a@x.com", some "9123456780", none, none⟩).2.length
        = ([] : List DbRow).length + 2) ∧
    ((handlePostBacked [] "i5" 0
        ⟨some "A", some "a@x.com", some "9876543210", none, none⟩).1.status
          = 201 ∧
      (handlePostBacked (handlePostBacked [] "i5" 0
          ⟨some "A", some "a@x.com", some "9876543210", none, none⟩).2 "i6" 1
          ⟨some "B", some "b@x.com", some "9876543210", none, none⟩).1.status
        = 201 ∧
      (handlePostBacked (handlePostBacked [] "i5" 0
          ⟨some "A", some "a@x.com", some "9876543210", none, none⟩).2 "i6" 1
          ⟨some "B", some "b@x.com", some "9876543210", none, none⟩).2.length
        = ([] : List DbRow).length + 2) :=
  ⟨dedup_email_phone_invariant.1 [] "i0" 0
      ⟨some "A", some "a@x.com", some "9876543210", none, none⟩
      (List.Pairwise.nil),
   dedup_email_phone_invariant.2.1 [] "i1" "i2" 0 1
      ⟨some "A", some "a@x.com", some "9876543210", none, none⟩
      ⟨some "B", some "A@X.com", some "9876543210", none, none⟩
      "A" "a@x.com" "9876543210" "" "" "B" "A@X.com" "9876543210" "" ""
      (by decide) (by decide) (by decide) (by decide) (by decide),
   dedup_email_phone_invariant.2.2.1 [] "i3" "i4" 0 1
      ⟨some "A", some "a@x.com", some "9876543210", none, none⟩
      ⟨some "A", some "a@x.com", some "9123456780", none, none⟩
      "A" "a@x.com" "9876543210" "" "" "A" "a@x.com" "9123456780" "" ""
      (by decide) (by decide) (by decide) (by decide) (by decide),
   dedup_email_phone_invariant.2.2.2 [] "i5" "i6" 0 1
      ⟨some "A", some "a@x.com", some "9876543210", none, none⟩
      ⟨some "B", some "b@x.com", some "9876543210", none, none⟩
      "A" "a@x.com" "9876543210" "" "" "B" "b@x.com" "9876543210" "" ""
      (by decide) (by decide) (by decide) (by decide) (by decide)
      (by decide)⟩

/-- C5 counterexample: the claim covers subdomains of a listed registered
domain, but `isDisposableEmail` compares the entire post-at substring
against the denylist, so `a@sub.mailinator.com` — whose registered domain
`mailinator.com` is on the list — is not flagged and POST /leads accepts it
with a 201 instead of the disposable-email 400. -/
theorem disposable_subdomain_accepted :
    ("mailinator.com" ∈ DISPOSABLE_DOMAINS) ∧
    isDisposableEmail "a@sub.mailinator.com" = false ∧
    (handlePostBacked [] "lead-5" 0
      ⟨some "A", some "a@sub.mailinator.com", some "9876543210", none,
        none⟩).1.status = 201 ∧
    (handlePostBacked [] "lead-5" 0
      ⟨some "A", some "a@sub.mailinator.com", some "9876543210", none,
        none⟩).1.message ≠ disposableMsg := by
  refine ⟨by decide, by decide, by decide, by decide⟩

/-- C5 (amended): any email whose full domain part (the substring after the
at-sign) appears in the denylist after lowercasing is flagged as disposable —
so any casing of a listed domain is covered — and every request with
present fields, acceptable shape and a disposable domain is answered 400
with the disposable-email message, the store unchanged.  Subdomains of a
listed domain are not covered. -/
theorem disposable_exact_domain_rejected :
    (∀ (em d : String), jsDomainOf em = some d →
      jsToLower d ∈ DISPOSABLE_DOMAINS → isDisposableEmail em = true) ∧
    (∀ (db : List DbRow) (rowId : String) (t : Nat) (nm em ph : String)
       (co ad : Option String),
      nm ≠ "" → em ≠ "" → ph ≠ "" →
      isEmailFormat em = true → isDisposableEmail em = true →
      handlePostBacked db rowId t ⟨some nm, some em, some ph, co, ad⟩ =
        ({ status := 400, message := disposableMsg, lead := none, log := [],
           emailsSent := 0 }, db)) := by
  constructor
  · intro em d hdom hmem
    have hdne : d ≠ "" := fun h => by
      rw [h] at hmem
      exact absurd hmem (by decide)
    simp [isDisposableEmail, hdom, hdne]
    exact hmem
  · intro db rowId t nm em ph co ad hnm hem hph hfmt hdisp
    exact handlePostBacked_invalid db rowId t _ 400 disposableMsg
      (validateBody_disposable_eq nm em ph co ad hnm hem hph hfmt hdisp)

/-- C5 amended witness: an upper-case spelling of a listed domain is flagged
and the corresponding POST is answered 400 with the disposable message. -/
theorem disposable_exact_domain_rejected_witness :
    isDisposableEmail "a@MAILINATOR.com" = true ∧
    handlePostBacked [] "lead-5b" 0
      ⟨some "A", some "a@MAILINATOR.com", some "9876543210", none, none⟩ =
      ({ status := 400, message := disposableMsg, lead := none, log := [],
         emailsSent := 0 }, []) :=
  ⟨disposable_exact_domain_rejected.1 "a@MAILINATOR.com" "MAILINATOR.com"
      (by decide) (by decide),
   disposable_exact_domain_rejected.2 [] "lead-5b" 0 "A" "a@MAILINATOR.com"
      "9876543210" none none (by decide) (by decide) (by decide) (by decide)
      (by decide)⟩

/-- C8: in backed mode GET /leads returns the stored rows ordered by
`created_at_utc` descending, each projected with both timestamp renderings
derived from `created_at_utc` at read time; in fallback mode, however, the
handler evaluates the undeclared identifier `leads` and throws instead of
returning the stored leads. -/
theorem list_leads_read_model :
    getLeadsFallback = Except.error "ReferenceError: leads is not defined" ∧
    ∀ db : List DbRow,
      List.Sorted laterFirst (dbOrderByCreatedDesc db) ∧
      (dbOrderByCreatedDesc db).Perm db ∧
      getLeadsBacked db = (dbOrderByCreatedDesc db).map rowToLeadOut ∧
      (getLeadsBacked db).map LeadOut.createdAt =
        (dbOrderByCreatedDesc db).map
          (fun r => toLocaleIST r.created_at_utc) ∧
      (getLeadsBacked db).map LeadOut.createdAtUTC =
        (dbOrderByCreatedDesc db).map
          (fun r => toISOString r.created_at_utc) := by
  refine ⟨rfl, fun db => ⟨?_, ?_, rfl, ?_, ?_⟩⟩
  · exact List.sorted_insertionSort laterFirst db
  · exact List.perm_insertionSort laterFirst db
  · simp [getLeadsBacked, rowToLeadOut, List.map_map, Function.comp]
  · simp [getLeadsBacked, rowToLeadOut, List.map_map, Function.comp]

/-- C10: a non-empty name consisting only of whitespace passes the
presence/truthiness check unchanged (trimming happens only at insertion), so
with acceptable email and phone the request is accepted with a 201 and the
stored row carries the empty string as name. -/
theorem whitespace_name_stored_empty :
    ∀ (db : List DbRow) (rowId : String) (t : Nat) (nm em ph d : String)
      (co ad : Option String),
      nm ≠ "" → nm.data.all Char.isWhitespace = true →
      em ≠ "" → ph ≠ "" →
      isEmailFormat em = true → isDisposableEmail em = false →
      validatePhoneRaw ph = .ok d →
      pairTaken db (jsToLower (jsTrim em)) d = false →
      validateBody ⟨some nm, some em, some ph, co, ad⟩ =
        .valid nm em d (ad.getD "") (co.getD "") ∧
      (handlePostBacked db rowId t
        ⟨some nm, some em, some ph, co, ad⟩).1.status = 201 ∧
      (handlePostBacked db rowId t ⟨some nm, some em, some ph, co, ad⟩).2 =
        db ++ [{ id := rowId, name := "", email := jsToLower (jsTrim em),
                 phone := d, address := ad.getD "", course := co.getD "",
                 source := "website", created_at_utc := t }] := by
  intro db rowId t nm em ph d co ad hnm hws hem hph hfmt hdisp hok hfresh
  have hv := validateBody_valid_eq nm em ph co ad d hnm hem hph hfmt hdisp hok
  have hh := handlePostBacked_fresh db rowId t _ nm em d (ad.getD "")
    (co.getD "") hv hfresh
  refine ⟨hv, ?_, ?_⟩
  · rw [hh]
  · rw [hh]
    simp only [mkRow, jsTrim_of_all_whitespace nm hws]

/-- C10 witness: a single-space name is accepted and the stored row has the
empty name. -/
theorem whitespace_name_stored_empty_witness :
    (handlePostBacked [] "lead-10" 0
      ⟨some " ", some "a@x.com", some "9876543210", none, none⟩).1.status
        = 201 ∧
    (handlePostBacked [] "lead-10" 0
      ⟨some " ", some "a@x.com", some "9876543210", none, none⟩).2 =
      [{ id := "lead-10", name := "", email := "a@x.com",
         phone := "9876543210", address := "", course := "",
         source := "website", created_at_utc := 0 }] := by
  have h := whitespace_name_stored_empty [] "lead-10" 0 " " "a@x.com"
    "9876543210" "9876543210" none none (by decide) (by decide) (by decide)
    (by decide) (by decide) (by decide) (by decide) (by decide)
  refine ⟨h.2.1, ?_⟩
  rw [h.2.2]
  decide
